import Mathlib

/-!
Verification of the feedback aggregation module
(`src/graphql/mutations/CreateOrUpdateArticleReplyFeedback.ts`).

The TypeScript source is shallowly embedded below:
* `getArticleReplyFeedbackId` — the composite string key builder (line 17).
* `countFeedbacks` — the filter/reduce computing the positive and negative
  tallies (lines 42-54).
* `runCounterScript` / `updateEntryCounts` — the Painless update script that
  locates the reply entry by `replyId` inside `articleReplies` and overwrites
  its two counters, or sets `ctx.op = 'none'` when no entry matches
  (lines 62-79).
* `updateArticleReplyByFeedbacks` — the wrapper around the script update,
  which throws when the update result is not `updated` (lines 56-99).
* `resolve` — the mutation resolver: authentication check, doc/upsert of the
  feedback record, one-time author back-fill on creation, reload of the
  feedback set, and the counter update (lines 110-224).

Storage is modelled as association lists keyed by document id.  The
Elasticsearch `doc`/`upsert` update, the data loaders and `assertUser` /
`getContentDefaultStatus` live outside `src/`; their semantics are modelled
from the spec (§4.1, §6) where noted.
-/

set_option autoImplicit false

namespace RumorsApi

/-- A feedback record (`articlereplyfeedbacks` document).  `replyUserId` and
`articleReplyUserId` are `Option` because the upsert body does not set them;
they are patched in by the one-time author back-fill. -/
structure FeedbackRecord where
  articleId : String
  replyId : String
  userId : String
  appId : String
  score : Int
  comment : Option String
  status : String
  createdAt : Nat
  updatedAt : Nat
  replyUserId : Option String
  articleReplyUserId : Option String
  deriving DecidableEq, Repr

/-- One element of an article's `articleReplies` list.  `otherFields` stands
for the remaining reply-entry metadata the script never touches. -/
structure ArticleReplyEntry where
  replyId : String
  userId : String
  positiveFeedbackCount : Nat
  negativeFeedbackCount : Nat
  otherFields : String
  deriving DecidableEq, Repr

/-- An `articles` document.  `otherFields` stands for every field of the
article other than `articleReplies`. -/
structure Article where
  articleReplies : List ArticleReplyEntry
  otherFields : String
  deriving DecidableEq, Repr

/-- A `replies` document (only `userId` is read by this module). -/
structure Reply where
  userId : String
  otherFields : String
  deriving DecidableEq, Repr

/-- The acting user supplied by the auth collaborator. -/
structure User where
  id : String
  appId : String
  trusted : Bool
  deriving DecidableEq, Repr

/-- The three Elasticsearch indices this module touches, each an association
list keyed by document id. -/
structure Store where
  feedbacks : List (String × FeedbackRecord)
  articles : List (String × Article)
  replies : List (String × Reply)
  deriving DecidableEq, Repr

/-- Errors surfaced by the resolver. -/
inductive RErr where
  | unauthenticated
  | docLoadFailed
  | notFoundArticleReply
  | documentMissing
  | cannotUpdateArticleFeedbackCount
  | cannotGetUpdatedArticleReply
  deriving DecidableEq, Repr

/-- `getArticleReplyFeedbackId` (source line 17): the template literal
`${articleId}__${replyId}__${userId}__${appId}`. -/
def getArticleReplyFeedbackId (articleId replyId userId appId : String) : String :=
  articleId ++ "__" ++ replyId ++ "__" ++ userId ++ "__" ++ appId

/-- The reduce callback of `updateArticleReplyByFeedbacks` (source lines
45-52): bump the first component on score 1, the second on score -1. -/
def tallyStep (agg : Nat × Nat) (f : FeedbackRecord) : Nat × Nat :=
  if f.score == 1 then (agg.1 + 1, agg.2)
  else if f.score == -1 then (agg.1, agg.2 + 1)
  else agg

/-- The `[positiveFeedbackCount, negativeFeedbackCount]` computation of
`updateArticleReplyByFeedbacks` (source lines 42-54): filter to status
`NORMAL`, then reduce starting from `[0, 0]`. -/
def countFeedbacks (feedbacks : List FeedbackRecord) : Nat × Nat :=
  (feedbacks.filter (fun f => f.status == "NORMAL")).foldl tallyStep (0, 0)

/-- The loop body of the Painless script (source lines 63-79): walk
`articleReplies` to the first entry whose `replyId` matches, overwrite its two
counters; `none` means the loop ran off the end (the script then sets
`ctx.op = 'none'`). -/
def updateEntryCounts : List ArticleReplyEntry → String → Nat → Nat →
    Option (List ArticleReplyEntry)
  | [], _, _, _ => none
  | e :: rest, rid, p, n =>
    if e.replyId == rid then
      some ({ e with positiveFeedbackCount := p, negativeFeedbackCount := n } :: rest)
    else
      (updateEntryCounts rest rid p n).map (fun rest2 => e :: rest2)

/-- The whole Painless script run against one article document: returns the
(possibly updated) document together with the Elasticsearch update result,
`"noop"` when the script sets `ctx.op = 'none'` and `"updated"` otherwise. -/
def runCounterScript (a : Article) (rid : String) (p n : Nat) : Article × String :=
  match updateEntryCounts a.articleReplies rid p n with
  | none => (a, "noop")
  | some entries => ({ a with articleReplies := entries }, "updated")

/-- Replace the value stored under `k`, or append the pair when `k` is absent
(the keyed store underlying every `client.update` call). -/
def setAssoc {α : Type} (l : List (String × α)) (k : String) (v : α) :
    List (String × α) :=
  match l with
  | [] => [(k, v)]
  | (k2, v2) :: rest =>
    if k2 == k then (k, v) :: rest else (k2, v2) :: setAssoc rest k v

/-- `updateArticleReplyByFeedbacks` (source lines 37-99): compute the two
counts, run the script update on the article, throw unless the result is
`updated`, and return the matching entry found in the updated source. -/
def updateArticleReplyByFeedbacks (articles : List (String × Article))
    (articleId replyId : String) (feedbacks : List FeedbackRecord) :
    Except RErr (List (String × Article) × Option ArticleReplyEntry) :=
  match articles.lookup articleId with
  | none => .error .documentMissing
  | some a =>
    match runCounterScript a replyId (countFeedbacks feedbacks).1
        (countFeedbacks feedbacks).2 with
    | (a2, result) =>
      if result == "updated" then
        .ok (setAssoc articles articleId a2,
          a2.articleReplies.find? (fun e => e.replyId == replyId))
      else
        .error .cannotUpdateArticleFeedbackCount

/-- Modelled from the spec: `getContentDefaultStatus` lives in `util/user`
(outside `src/`); per §4.2/§6 the default moderation status is derived from
the acting user's trust level. -/
def getContentDefaultStatus (u : User) : String :=
  if u.trusted then "NORMAL" else "BLOCKED"

/-- The `doc` body of the feedback upsert (source lines 145-149): merge
`score`, `comment`, `updatedAt` into an existing record. -/
def applyVoteDoc (r : FeedbackRecord) (vote : Int) (comment : Option String)
    (now : Nat) : FeedbackRecord :=
  { r with score := vote, comment := comment, updatedAt := now }

/-- The `upsert` body of the feedback upsert (source lines 150-160): the
record inserted when no document exists for the key. -/
def newFeedback (articleId replyId : String) (u : User) (vote : Int)
    (comment : Option String) (now : Nat) : FeedbackRecord :=
  { articleId := articleId
    replyId := replyId
    userId := u.id
    appId := u.appId
    score := vote
    comment := comment
    status := getContentDefaultStatus u
    createdAt := now
    updatedAt := now
    replyUserId := none
    articleReplyUserId := none }

/-- The merge performed by the author back-fill `doc` update: write
`replyUserId` and `articleReplyUserId`, leaving every other field alone. -/
def enrichAuthors (r : FeedbackRecord) (replyUserId articleReplyUserId : String) :
    FeedbackRecord :=
  { r with
      replyUserId := some replyUserId
      articleReplyUserId := some articleReplyUserId }

/-- The author back-fill patch (source lines 192-202): a partial `doc` update
writing `replyUserId` and `articleReplyUserId` into the stored record. -/
def patchAuthorIds (fbs : List (String × FeedbackRecord)) (id : String)
    (replyUserId articleReplyUserId : String) : List (String × FeedbackRecord) :=
  match fbs.lookup id with
  | none => fbs
  | some r => setAssoc fbs id (enrichAuthors r replyUserId articleReplyUserId)

deriving instance DecidableEq for Except

/-- Result of one `resolve` call: the mutation's return value, the store
afterwards, and how many documents the `docLoader` fetched (used to observe
whether the author back-fill re-queried the Article/Reply collaborators). -/
structure ResolveOut where
  result : Except RErr (String × ArticleReplyEntry)
  store : Store
  lookups : Nat
  deriving DecidableEq, Repr

/-- Steps 4-6 of the resolver (source lines 205-223): reload every feedback
record of the `(articleId, replyId)` pair, run
`updateArticleReplyByFeedbacks`, and return the updated entry annotated with
`articleId`.  Modelled from the spec for the loader part (§4.1 `loadAll`):
`articleReplyFeedbacksLoader` lives outside `src/` and returns every record
for the pair regardless of status. -/
def finishResolve (store : Store) (lookups : Nat) (articleId replyId : String) :
    ResolveOut :=
  match updateArticleReplyByFeedbacks store.articles articleId replyId
      ((store.feedbacks.map Prod.snd).filter
        (fun f => f.articleId == articleId && f.replyId == replyId)) with
  | .error e => ⟨.error e, store, lookups⟩
  | .ok (articles2, none) =>
    ⟨.error .cannotGetUpdatedArticleReply, { store with articles := articles2 }, lookups⟩
  | .ok (articles2, some entry) =>
    ⟨.ok (articleId, entry), { store with articles := articles2 }, lookups⟩

/-- The mutation resolver (source lines 110-224).  `assertUser` and the
Elasticsearch `doc`/`upsert` update live outside `src/`; modelled from the
spec: `assertUser` fails with `Unauthenticated` when no user is present (§4.2,
§7), and the upsert inserts the `upsert` body when the key is absent,
otherwise merges the `doc` body (§4.1).  On creation the resolver loads the
reply and article documents (two `docLoader` fetches), locates the matching
reply entry — throwing when absent — and patches the author ids. -/
def resolve (store : Store) (userOpt : Option User) (now : Nat)
    (articleId replyId : String) (vote : Int) (comment : Option String) :
    ResolveOut :=
  match userOpt with
  | none => ⟨.error .unauthenticated, store, 0⟩
  | some user =>
    match store.feedbacks.lookup
        (getArticleReplyFeedbackId articleId replyId user.id user.appId) with
    | some r =>
      finishResolve
        { store with feedbacks :=
            (setAssoc store.feedbacks
              (getArticleReplyFeedbackId articleId replyId user.id user.appId)
              (applyVoteDoc r vote comment now)) }
        0 articleId replyId
    | none =>
      match store.replies.lookup replyId, store.articles.lookup articleId with
      | some reply, some article =>
        match article.articleReplies.find? (fun ar => ar.replyId == replyId) with
        | none =>
          ⟨.error .notFoundArticleReply,
            { store with feedbacks :=
                (setAssoc store.feedbacks
                  (getArticleReplyFeedbackId articleId replyId user.id user.appId)
                  (newFeedback articleId replyId user vote comment now)) },
            2⟩
        | some ar =>
          finishResolve
            { store with feedbacks :=
                (patchAuthorIds
                  (setAssoc store.feedbacks
                    (getArticleReplyFeedbackId articleId replyId user.id user.appId)
                    (newFeedback articleId replyId user vote comment now))
                  (getArticleReplyFeedbackId articleId replyId user.id user.appId)
                  reply.userId ar.userId) }
            2 articleId replyId
      | _, _ =>
        ⟨.error .docLoadFailed,
          { store with feedbacks :=
              (setAssoc store.feedbacks
                (getArticleReplyFeedbackId articleId replyId user.id user.appId)
                (newFeedback articleId replyId user vote comment now)) },
          2⟩

/-- A sequence of votes by one user on one article-reply pair: each element is
`(now, vote, comment)` and the calls are chained through the store. -/
def runVotes (u : User) (articleId replyId : String) :
    Store → List (Nat × Int × Option String) → Store
  | store, [] => store
  | store, (now, vote, comment) :: rest =>
    runVotes u articleId replyId
      (resolve store (some u) now articleId replyId vote comment).store rest

/-- `true` when the character list contains two consecutive underscores, i.e.
contains the reserved separator `__` as a substring. -/
def hasDoubleUnderscore : List Char → Bool
  | c1 :: c2 :: rest =>
    (c1 == '_' && c2 == '_') || hasDoubleUnderscore (c2 :: rest)
  | _ => false

/-- `true` when the character list ends with an underscore. -/
def lastIsUnderscore : List Char → Bool
  | [] => false
  | [c] => c == '_'
  | _ :: c :: rest => lastIsUnderscore (c :: rest)

/-- A key component is separator-safe when it neither contains `__` nor ends
with `_`. -/
def sepSafe (s : String) : Prop :=
  hasDoubleUnderscore s.data = false ∧ lastIsUnderscore s.data = false

instance (s : String) : Decidable (sepSafe s) :=
  inferInstanceAs (Decidable (_ ∧ _))

/-- Concrete feedback record used to evaluate the theorems: a NORMAL +1. -/
def fbPos : FeedbackRecord :=
  { articleId := "A1", replyId := "R1", userId := "U1", appId := "APP"
    score := 1, comment := none, status := "NORMAL"
    createdAt := 0, updatedAt := 0, replyUserId := none, articleReplyUserId := none }

/-- Concrete feedback record: a NORMAL -1. -/
def fbNeg : FeedbackRecord :=
  { fbPos with userId := "U2", score := -1 }

/-- Concrete feedback record: a NORMAL 0 vote. -/
def fbZero : FeedbackRecord :=
  { fbPos with userId := "U3", score := 0 }

/-- Concrete feedback record: a BLOCKED +1. -/
def fbBlocked : FeedbackRecord :=
  { fbPos with userId := "U4", status := "BLOCKED" }

/-- Concrete reply entry for `R1`. -/
def entryR1 : ArticleReplyEntry :=
  { replyId := "R1", userId := "AUTHOR1", positiveFeedbackCount := 0
    negativeFeedbackCount := 0, otherFields := "m1" }

/-- Concrete reply entry for `R2`. -/
def entryR2 : ArticleReplyEntry :=
  { replyId := "R2", userId := "AUTHOR2", positiveFeedbackCount := 5
    negativeFeedbackCount := 6, otherFields := "m2" }

/-- Concrete article `A1` embedding the two entries. -/
def articleA1 : Article :=
  { articleReplies := [entryR1, entryR2], otherFields := "body" }

/-- Concrete reply document for `R1`. -/
def replyR1 : Reply :=
  { userId := "REPLYAUTHOR", otherFields := "reply body" }

/-- Concrete acting user. -/
def userU1 : User :=
  { id := "U1", appId := "APP", trusted := true }

/-- Concrete initial store: article `A1`, reply `R1`, no feedback yet. -/
def store0 : Store :=
  { feedbacks := [], articles := [("A1", articleA1)], replies := [("R1", replyR1)] }

/-- Concrete feedback record carrying an earlier comment. -/
def fbExisting : FeedbackRecord :=
  { fbPos with comment := some "older comment" }

/-- Concrete store in which `U1` has already voted on `(A1, R1)`. -/
def storeWithVote : Store :=
  { feedbacks := [("A1__R1__U1__APP", fbExisting)]
    articles := [("A1", articleA1)]
    replies := [("R1", replyR1)] }

/-- Concrete store whose article lacks an entry for reply `R9` even though the
reply document itself exists: an orphaned reply reference. -/
def storeOrphan : Store :=
  { feedbacks := [], articles := [("A1", articleA1)], replies := [("R9", replyR1)] }

/- ------------------------------------------------------------------ -/
/- Lemmas about the tally fold (source lines 42-54).                   -/
/- ------------------------------------------------------------------ -/

theorem foldl_tallyStep (l : List FeedbackRecord) (a b : Nat) :
    l.foldl tallyStep (a, b) =
      (a + l.countP (fun f => f.score == 1),
       b + l.countP (fun f => f.score == -1)) := by
  induction l generalizing a b with
  | nil => simp
  | cons f l ih =>
    rw [List.foldl_cons, List.countP_cons, List.countP_cons]
    cases hb1 : (f.score == 1) with
    | true =>
      have hb2 : (f.score == -1) = false := by
        have h := eq_of_beq hb1
        simp [h]
      simp [tallyStep, hb1, hb2, ih] <;> omega
    | false =>
      cases hb2 : (f.score == -1) with
      | true => simp [tallyStep, hb1, hb2, ih] <;> omega
      | false => simp [tallyStep, hb1, hb2, ih] <;> omega

theorem countFeedbacks_eq (fs : List FeedbackRecord) :
    countFeedbacks fs =
      (fs.countP (fun f => f.status == "NORMAL" && f.score == 1),
       fs.countP (fun f => f.status == "NORMAL" && f.score == -1)) := by
  rw [countFeedbacks, foldl_tallyStep]
  rw [List.countP_filter, List.countP_filter]
  rw [Prod.mk.injEq]
  constructor <;>
    (rw [Nat.zero_add]; exact List.countP_congr (fun a _ => by rw [Bool.and_comm]))

/-- C1: the computed `positiveFeedbackCount` equals the number of records with
status NORMAL and score 1, `negativeFeedbackCount` the number with status
NORMAL and score -1, and both counts are invariant under any permutation of
the input list. -/
theorem c1_count_correctness (fs gs : List FeedbackRecord) (h : fs.Perm gs) :
    (countFeedbacks fs).1 =
        fs.countP (fun f => f.status == "NORMAL" && f.score == 1) ∧
    (countFeedbacks fs).2 =
        fs.countP (fun f => f.status == "NORMAL" && f.score == -1) ∧
    countFeedbacks fs = countFeedbacks gs := by
  refine ⟨by rw [countFeedbacks_eq], by rw [countFeedbacks_eq], ?_⟩
  rw [countFeedbacks_eq, countFeedbacks_eq, h.countP_eq, h.countP_eq]

/-- Witness for C1 at a concrete four-record list and a permutation of it. -/
theorem c1_count_correctness_witness :
    ([fbPos, fbNeg, fbZero, fbBlocked].Perm [fbBlocked, fbZero, fbNeg, fbPos]) ∧
    ((countFeedbacks [fbPos, fbNeg, fbZero, fbBlocked]).1 =
        List.countP (fun f => f.status == "NORMAL" && f.score == 1)
          [fbPos, fbNeg, fbZero, fbBlocked] ∧
     (countFeedbacks [fbPos, fbNeg, fbZero, fbBlocked]).2 =
        List.countP (fun f => f.status == "NORMAL" && f.score == -1)
          [fbPos, fbNeg, fbZero, fbBlocked] ∧
     countFeedbacks [fbPos, fbNeg, fbZero, fbBlocked] =
        countFeedbacks [fbBlocked, fbZero, fbNeg, fbPos]) :=
  ⟨by decide, c1_count_correctness _ _ (by decide)⟩

/-- C7: a record whose status is not NORMAL, or whose score is neither 1 nor
-1 (in particular 0), contributes to neither counter: prepending it leaves
both counts unchanged. -/
theorem c7_status_score_exclusion (r : FeedbackRecord) (fs : List FeedbackRecord)
    (h : r.status ≠ "NORMAL" ∨ (r.score ≠ 1 ∧ r.score ≠ -1)) :
    countFeedbacks (r :: fs) = countFeedbacks fs := by
  rw [countFeedbacks_eq, countFeedbacks_eq, List.countP_cons, List.countP_cons]
  rcases h with h | ⟨h1, h2⟩
  · have hs : (r.status == "NORMAL") = false := by simp [h]
    simp [hs]
  · have hb1 : (r.score == 1) = false := by simp [h1]
    have hb2 : (r.score == -1) = false := by simp [h2]
    simp [hb1, hb2]

/-- Witness for C7: a NORMAL score-0 record leaves both counts unchanged. -/
theorem c7_status_score_exclusion_witness :
    (fbZero.status ≠ "NORMAL" ∨ (fbZero.score ≠ 1 ∧ fbZero.score ≠ -1)) ∧
    countFeedbacks (fbZero :: [fbPos]) = countFeedbacks [fbPos] :=
  ⟨by decide, c7_status_score_exclusion fbZero [fbPos] (by decide)⟩

/- ------------------------------------------------------------------ -/
/- Lemmas about the Painless counter script (source lines 62-79).      -/
/- ------------------------------------------------------------------ -/

theorem updateEntryCounts_none_iff (l : List ArticleReplyEntry) (rid : String)
    (p n : Nat) :
    updateEntryCounts l rid p n = none ↔
      ∀ e ∈ l, (e.replyId == rid) = false := by
  induction l with
  | nil => simp [updateEntryCounts]
  | cons e rest ih =>
    cases hb : (e.replyId == rid) with
    | true =>
      simp only [updateEntryCounts, hb, if_true]
      constructor
      · intro h
        exact (Option.some_ne_none _ h).elim
      · intro h
        have h2 := h e (List.mem_cons_self e rest)
        rw [hb] at h2
        simp at h2
    | false =>
      have hstep : updateEntryCounts (e :: rest) rid p n =
          (updateEntryCounts rest rid p n).map (fun rest2 => e :: rest2) := by
        simp [updateEntryCounts, hb]
      rw [hstep, Option.map_eq_none', ih]
      constructor
      · intro h x hx
        rcases List.mem_cons.mp hx with rfl | hx2
        · exact hb
        · exact h x hx2
      · intro h x hx
        exact h x (List.mem_cons_of_mem e hx)

theorem updateEntryCounts_frame (l : List ArticleReplyEntry) (rid : String)
    (p n : Nat) (huniq : l.countP (fun e => e.replyId == rid) ≤ 1) :
    List.Forall₂
      (fun e e2 =>
        (e.replyId ≠ rid → e2 = e) ∧
        (e.replyId = rid →
          e2 = { e with positiveFeedbackCount := p, negativeFeedbackCount := n }))
      l
      (match updateEntryCounts l rid p n with
       | none => l
       | some l2 => l2) := by
  induction l with
  | nil => simp [updateEntryCounts]
  | cons e rest ih =>
    cases hb : (e.replyId == rid) with
    | true =>
      have he : e.replyId = rid := eq_of_beq hb
      have hzero : rest.countP (fun x => x.replyId == rid) = 0 := by
        have h2 : (e :: rest).countP (fun x => x.replyId == rid) =
            rest.countP (fun x => x.replyId == rid) + 1 :=
          List.countP_cons_of_pos _ _ hb
        omega
      simp only [updateEntryCounts, hb, if_true]
      refine List.Forall₂.cons ⟨fun hne => absurd he hne, fun _ => rfl⟩ ?_
      rw [List.forall₂_same]
      intro x hx
      have hxne : x.replyId ≠ rid := by
        have := (List.countP_eq_zero.mp hzero) x hx
        simpa using this
      exact ⟨fun _ => rfl, fun hx2 => absurd hx2 hxne⟩
    | false =>
      have hne : e.replyId ≠ rid := by
        intro h
        simp [h] at hb
      have huniq2 : rest.countP (fun x => x.replyId == rid) ≤ 1 := by
        rw [List.countP_cons] at huniq
        omega
      have ih2 := ih huniq2
      simp only [updateEntryCounts, hb, if_false]
      cases hrec : updateEntryCounts rest rid p n with
      | none =>
        rw [hrec] at ih2
        exact List.Forall₂.cons ⟨fun _ => rfl, fun h => absurd h hne⟩ ih2
      | some l2 =>
        rw [hrec] at ih2
        exact List.Forall₂.cons ⟨fun _ => rfl, fun h => absurd h hne⟩ ih2

/-- C4: under a unique matching `replyId`, the script update changes at most
the two counter fields of the matching entry; every non-matching entry and
every non-`articleReplies` field of the article document is unchanged. -/
theorem c4_projector_frame (a : Article) (rid : String) (p n : Nat)
    (huniq : a.articleReplies.countP (fun e => e.replyId == rid) ≤ 1) :
    (runCounterScript a rid p n).1.otherFields = a.otherFields ∧
    List.Forall₂
      (fun e e2 =>
        (e.replyId ≠ rid → e2 = e) ∧
        (e.replyId = rid →
          e2 = { e with positiveFeedbackCount := p, negativeFeedbackCount := n }))
      a.articleReplies (runCounterScript a rid p n).1.articleReplies := by
  have h := updateEntryCounts_frame a.articleReplies rid p n huniq
  cases hres : updateEntryCounts a.articleReplies rid p n with
  | none =>
    rw [hres] at h
    simp only [runCounterScript, hres]
    exact ⟨trivial, h⟩
  | some l2 =>
    rw [hres] at h
    simp only [runCounterScript, hres]
    exact ⟨trivial, h⟩

/-- Witness for C4 at the concrete two-entry article. -/
theorem c4_projector_frame_witness :
    (articleA1.articleReplies.countP (fun e => e.replyId == "R1") ≤ 1) ∧
    ((runCounterScript articleA1 "R1" 7 8).1.otherFields = articleA1.otherFields ∧
     List.Forall₂
       (fun e e2 =>
         (e.replyId ≠ "R1" → e2 = e) ∧
         (e.replyId = "R1" →
           e2 = { e with positiveFeedbackCount := 7, negativeFeedbackCount := 8 }))
       articleA1.articleReplies
       (runCounterScript articleA1 "R1" 7 8).1.articleReplies) :=
  ⟨by decide, c4_projector_frame articleA1 "R1" 7 8 (by decide)⟩

/-- C2 counterexample: with article `A1` present but no entry for `R9`, the
counter update does raise an error (the script reports a no-op, so the
`updated` check throws), contradicting the claim that no error is raised. -/
theorem c2_missing_reply_counterexample :
    updateArticleReplyByFeedbacks [("A1", articleA1)] "A1" "R9" [] =
      .error .cannotUpdateArticleFeedbackCount := by
  rfl

/-- C2 amended: when no entry matches `replyId`, the embedded script itself
performs no modification and signals a no-op, but
`updateArticleReplyByFeedbacks` then raises an error because the update
result is not `updated`. -/
theorem c2_noop_then_error (articles : List (String × Article))
    (articleId rid : String) (fbs : List FeedbackRecord) (a : Article)
    (hlook : articles.lookup articleId = some a)
    (hmiss : ∀ e ∈ a.articleReplies, (e.replyId == rid) = false) :
    runCounterScript a rid (countFeedbacks fbs).1 (countFeedbacks fbs).2 =
      (a, "noop") ∧
    updateArticleReplyByFeedbacks articles articleId rid fbs =
      .error .cannotUpdateArticleFeedbackCount := by
  have hnone : updateEntryCounts a.articleReplies rid
      (countFeedbacks fbs).1 (countFeedbacks fbs).2 = none :=
    (updateEntryCounts_none_iff _ _ _ _).mpr hmiss
  constructor
  · simp [runCounterScript, hnone]
  · simp [updateArticleReplyByFeedbacks, hlook, runCounterScript, hnone]

/-- Witness for the amended C2 at the concrete article store. -/
theorem c2_noop_then_error_witness :
    ([("A1", articleA1)].lookup "A1" = some articleA1 ∧
     ∀ e ∈ articleA1.articleReplies, (e.replyId == "R9") = false) ∧
    (runCounterScript articleA1 "R9" (countFeedbacks []).1 (countFeedbacks []).2 =
        (articleA1, "noop") ∧
     updateArticleReplyByFeedbacks [("A1", articleA1)] "A1" "R9" [] =
        .error .cannotUpdateArticleFeedbackCount) :=
  ⟨⟨by decide, by decide⟩,
   c2_noop_then_error [("A1", articleA1)] "A1" "R9" [] articleA1
     (by decide) (by decide)⟩

/- ------------------------------------------------------------------ -/
/- Lemmas about the composite key encoding (source lines 17-29).       -/
/- ------------------------------------------------------------------ -/

theorem sep_data : "__".data = ['_', '_'] := rfl

theorem string_data_append (x y : String) : (x ++ y).data = x.data ++ y.data := rfl

theorem string_eq_of_data (x y : String) (h : x.data = y.data) : x = y := by
  cases x
  cases y
  exact congrArg String.mk h

theorem hasDU_tail (c : Char) (l : List Char)
    (h : hasDoubleUnderscore (c :: l) = false) : hasDoubleUnderscore l = false := by
  cases l with
  | nil => rfl
  | cons c2 rest =>
    simp only [hasDoubleUnderscore, Bool.or_eq_false_iff] at h
    exact h.2

theorem lastIs_tail (c : Char) (l : List Char)
    (h : lastIsUnderscore (c :: l) = false) : lastIsUnderscore l = false := by
  cases l with
  | nil => rfl
  | cons c2 rest =>
    simpa only [lastIsUnderscore] using h

theorem append_sep_inj (a : List Char) : ∀ (b s t : List Char),
    hasDoubleUnderscore a = false → lastIsUnderscore a = false →
    hasDoubleUnderscore b = false → lastIsUnderscore b = false →
    a ++ '_' :: '_' :: s = b ++ '_' :: '_' :: t →
    a = b ∧ s = t := by
  induction a with
  | nil =>
    intro b s t _ _ hb1 hb2 h
    cases b with
    | nil => simpa using h
    | cons d b2 =>
      injection h with h1 h2
      cases b2 with
      | nil =>
        rw [← h1] at hb2
        simp [lastIsUnderscore] at hb2
      | cons d2 b3 =>
        injection h2 with h3 h4
        rw [← h1, ← h3] at hb1
        simp [hasDoubleUnderscore] at hb1
  | cons c a2 ih =>
    intro b s t ha1 ha2 hb1 hb2 h
    cases b with
    | nil =>
      injection h with h1 h2
      cases a2 with
      | nil =>
        rw [h1] at ha2
        simp [lastIsUnderscore] at ha2
      | cons c2 a3 =>
        injection h2 with h3 h4
        rw [h1, h3] at ha1
        simp [hasDoubleUnderscore] at ha1
    | cons d b2 =>
      injection h with h1 h2
      obtain ⟨hab, hst⟩ := ih b2 s t (hasDU_tail c a2 ha1) (lastIs_tail c a2 ha2)
        (hasDU_tail d b2 hb1) (lastIs_tail d b2 hb2) h2
      constructor
      · rw [h1, hab]
      · exact hst

/-- C9 counterexample: two distinct tuples whose components all avoid the
separator string `__`, yet encode to the same key (`a_`/`b` versus
`a`/`_b`). -/
theorem c9_not_injective_counterexample :
    hasDoubleUnderscore "a_".data = false ∧ hasDoubleUnderscore "b".data = false ∧
    hasDoubleUnderscore "a".data = false ∧ hasDoubleUnderscore "_b".data = false ∧
    hasDoubleUnderscore "u".data = false ∧ hasDoubleUnderscore "p".data = false ∧
    (("a_", "b", "u", "p") ≠ (("a", "_b", "u", "p") : String × String × String × String)) ∧
    getArticleReplyFeedbackId "a_" "b" "u" "p" =
      getArticleReplyFeedbackId "a" "_b" "u" "p" := by
  decide

/-- C9 amended: the encoding is injective for tuples whose component fields
neither contain the separator string `__` nor end with an underscore (the
original precondition — merely not containing `__` — is not enough, as the
counterexample shows). -/
theorem c9_key_injective_amended (a1 r1 u1 p1 a2 r2 u2 p2 : String)
    (h1 : sepSafe a1) (h2 : sepSafe r1) (h3 : sepSafe u1) (h4 : sepSafe p1)
    (h5 : sepSafe a2) (h6 : sepSafe r2) (h7 : sepSafe u2) (h8 : sepSafe p2) :
    getArticleReplyFeedbackId a1 r1 u1 p1 = getArticleReplyFeedbackId a2 r2 u2 p2 ↔
      (a1 = a2 ∧ r1 = r2 ∧ u1 = u2 ∧ p1 = p2) := by
  constructor
  · intro h
    have hd := congrArg String.data h
    rw [getArticleReplyFeedbackId, getArticleReplyFeedbackId] at hd
    simp only [string_data_append, sep_data, List.append_assoc, List.cons_append,
      List.nil_append] at hd
    obtain ⟨ha, hrest1⟩ := append_sep_inj a1.data a2.data _ _ h1.1 h1.2 h5.1 h5.2 hd
    obtain ⟨hr, hrest2⟩ := append_sep_inj r1.data r2.data _ _ h2.1 h2.2 h6.1 h6.2 hrest1
    obtain ⟨hu, hp⟩ := append_sep_inj u1.data u2.data _ _ h3.1 h3.2 h7.1 h7.2 hrest2
    exact ⟨string_eq_of_data _ _ ha, string_eq_of_data _ _ hr,
           string_eq_of_data _ _ hu, string_eq_of_data _ _ hp⟩
  · rintro ⟨rfl, rfl, rfl, rfl⟩
    rfl

/-- Witness for the amended C9 at concrete separator-safe components. -/
theorem c9_key_injective_amended_witness :
    (sepSafe "a" ∧ sepSafe "b" ∧ sepSafe "c" ∧ sepSafe "d" ∧ sepSafe "x") ∧
    (getArticleReplyFeedbackId "a" "b" "c" "d" =
        getArticleReplyFeedbackId "x" "b" "c" "d" ↔
      ("a" = "x" ∧ "b" = "b" ∧ "c" = "c" ∧ "d" = "d")) :=
  ⟨⟨by decide, by decide, by decide, by decide, by decide⟩,
   c9_key_injective_amended "a" "b" "c" "d" "x" "b" "c" "d"
     (by decide) (by decide) (by decide) (by decide)
     (by decide) (by decide) (by decide) (by decide)⟩

/- ------------------------------------------------------------------ -/
/- Lemmas about the keyed store and the resolver paths.                -/
/- ------------------------------------------------------------------ -/

theorem lookup_setAssoc_self {α : Type} (l : List (String × α)) (k : String) (v : α) :
    (setAssoc l k v).lookup k = some v := by
  induction l with
  | nil => simp [setAssoc, List.lookup]
  | cons p rest ih =>
    obtain ⟨k2, v2⟩ := p
    by_cases hk : k2 = k
    · subst hk
      simp [setAssoc, List.lookup]
    · have hbk : (k == k2) = false := beq_eq_false_iff_ne.mpr (fun he => hk he.symm)
      have hbk2 : (k2 == k) = false := beq_eq_false_iff_ne.mpr hk
      simp [setAssoc, List.lookup, hbk, hbk2, ih]

theorem setAssoc_setAssoc {α : Type} (l : List (String × α)) (k : String) (v w : α) :
    setAssoc (setAssoc l k v) k w = setAssoc l k w := by
  induction l with
  | nil => simp [setAssoc]
  | cons p rest ih =>
    obtain ⟨k2, v2⟩ := p
    by_cases hk : k2 = k
    · subst hk
      simp [setAssoc]
    · have hbk2 : (k2 == k) = false := beq_eq_false_iff_ne.mpr hk
      simp [setAssoc, hbk2, ih]

theorem countP_setAssoc_of_lookup_none {α : Type} (l : List (String × α))
    (k : String) (v : α) (h : l.lookup k = none) :
    (setAssoc l k v).countP (fun q => q.1 == k) = 1 := by
  induction l with
  | nil => simp [setAssoc]
  | cons p rest ih =>
    obtain ⟨k2, v2⟩ := p
    by_cases hk : k2 = k
    · subst hk
      simp [List.lookup] at h
    · have hbk : (k == k2) = false := beq_eq_false_iff_ne.mpr (fun he => hk he.symm)
      have hbk2 : (k2 == k) = false := beq_eq_false_iff_ne.mpr hk
      rw [List.lookup, hbk] at h
      simp [setAssoc, hbk2, List.countP_cons, ih h]

theorem countP_setAssoc_of_lookup_some {α : Type} (l : List (String × α))
    (k : String) (v r : α) (h : l.lookup k = some r) :
    (setAssoc l k v).countP (fun q => q.1 == k) =
      l.countP (fun q => q.1 == k) := by
  induction l with
  | nil => simp [List.lookup] at h
  | cons p rest ih =>
    obtain ⟨k2, v2⟩ := p
    by_cases hk : k2 = k
    · subst hk
      simp [setAssoc, List.countP_cons]
    · have hbk : (k == k2) = false := beq_eq_false_iff_ne.mpr (fun he => hk he.symm)
      have hbk2 : (k2 == k) = false := beq_eq_false_iff_ne.mpr hk
      rw [List.lookup, hbk] at h
      simp [setAssoc, hbk2, List.countP_cons, ih h]

theorem patchAuthorIds_setAssoc (l : List (String × FeedbackRecord)) (k : String)
    (r : FeedbackRecord) (x y : String) :
    patchAuthorIds (setAssoc l k r) k x y =
      setAssoc l k (enrichAuthors r x y) := by
  simp only [patchAuthorIds, lookup_setAssoc_self, setAssoc_setAssoc]

theorem finishResolve_feedbacks (store : Store) (lk : Nat) (aid rid : String) :
    (finishResolve store lk aid rid).store.feedbacks = store.feedbacks ∧
    (finishResolve store lk aid rid).lookups = lk := by
  cases h : updateArticleReplyByFeedbacks store.articles aid rid
      ((store.feedbacks.map Prod.snd).filter
        (fun f => f.articleId == aid && f.replyId == rid)) with
  | error e => simp [finishResolve, h]
  | ok pr =>
    obtain ⟨arts, entry2⟩ := pr
    cases entry2 with
    | none => simp [finishResolve, h]
    | some entry => simp [finishResolve, h]

theorem resolve_updated_effect (store : Store) (u : User) (now : Nat)
    (articleId replyId : String) (vote : Int) (comment : Option String)
    (r : FeedbackRecord)
    (hlook : store.feedbacks.lookup
        (getArticleReplyFeedbackId articleId replyId u.id u.appId) = some r) :
    (resolve store (some u) now articleId replyId vote comment).store.feedbacks =
      setAssoc store.feedbacks
        (getArticleReplyFeedbackId articleId replyId u.id u.appId)
        (applyVoteDoc r vote comment now) ∧
    (resolve store (some u) now articleId replyId vote comment).lookups = 0 := by
  simp only [resolve, hlook]
  exact ⟨(finishResolve_feedbacks _ _ _ _).1, (finishResolve_feedbacks _ _ _ _).2⟩

theorem resolve_created_enriched (store : Store) (u : User) (now : Nat)
    (articleId replyId : String) (vote : Int) (comment : Option String)
    (reply : Reply) (article : Article) (ar : ArticleReplyEntry)
    (hnone : store.feedbacks.lookup
        (getArticleReplyFeedbackId articleId replyId u.id u.appId) = none)
    (hreply : store.replies.lookup replyId = some reply)
    (harticle : store.articles.lookup articleId = some article)
    (hfound : article.articleReplies.find? (fun e => e.replyId == replyId) = some ar) :
    (resolve store (some u) now articleId replyId vote comment).store.feedbacks =
      setAssoc store.feedbacks
        (getArticleReplyFeedbackId articleId replyId u.id u.appId)
        (enrichAuthors (newFeedback articleId replyId u vote comment now)
          reply.userId ar.userId) ∧
    (resolve store (some u) now articleId replyId vote comment).lookups = 2 := by
  simp only [resolve, hnone, hreply, harticle, hfound]
  refine ⟨?_, (finishResolve_feedbacks _ _ _ _).2⟩
  rw [(finishResolve_feedbacks _ _ _ _).1]
  exact patchAuthorIds_setAssoc _ _ _ _ _

/-- C8: with no authenticated user, the resolver fails with `Unauthenticated`
before any write: the error is returned, the store is unchanged, and no
document load is performed. -/
theorem c8_unauthenticated_no_write (store : Store) (now : Nat)
    (articleId replyId : String) (vote : Int) (comment : Option String) :
    resolve store none now articleId replyId vote comment =
      ⟨.error .unauthenticated, store, 0⟩ :=
  rfl

/-- C10: a later vote whose `comment` argument is absent overwrites the
stored record's comment with the empty value: the previously stored comment
is not preserved. -/
theorem c10_comment_overwritten (store : Store) (u : User) (now : Nat)
    (articleId replyId : String) (vote : Int) (r : FeedbackRecord)
    (hlook : store.feedbacks.lookup
        (getArticleReplyFeedbackId articleId replyId u.id u.appId) = some r) :
    (resolve store (some u) now articleId replyId vote none).store.feedbacks.lookup
        (getArticleReplyFeedbackId articleId replyId u.id u.appId) =
      some (applyVoteDoc r vote none now) ∧
    (applyVoteDoc r vote none now).comment = none := by
  refine ⟨?_, rfl⟩
  rw [(resolve_updated_effect store u now articleId replyId vote none r hlook).1]
  exact lookup_setAssoc_self _ _ _

/-- Witness for C10: `U1` re-votes without a comment; the stored `older
comment` is replaced by the empty value. -/
theorem c10_comment_overwritten_witness :
    (storeWithVote.feedbacks.lookup
        (getArticleReplyFeedbackId "A1" "R1" userU1.id userU1.appId) =
      some fbExisting) ∧
    ((resolve storeWithVote (some userU1) 9 "A1" "R1" (-1) none).store.feedbacks.lookup
        (getArticleReplyFeedbackId "A1" "R1" userU1.id userU1.appId) =
      some (applyVoteDoc fbExisting (-1) none 9) ∧
     (applyVoteDoc fbExisting (-1) none 9).comment = none) :=
  ⟨by decide,
   c10_comment_overwritten storeWithVote userU1 9 "A1" "R1" (-1) fbExisting (by decide)⟩

/-- C5: when a newly created feedback record's article has no entry for the
reply, the resolver fails with the article-reply NotFound error, the article
store is untouched, and the upserted record stays persisted un-enriched
(both author id fields empty). -/
theorem c5_enrichment_notfound (store : Store) (u : User) (now : Nat)
    (articleId replyId : String) (vote : Int) (comment : Option String)
    (reply : Reply) (article : Article)
    (hnone : store.feedbacks.lookup
        (getArticleReplyFeedbackId articleId replyId u.id u.appId) = none)
    (hreply : store.replies.lookup replyId = some reply)
    (harticle : store.articles.lookup articleId = some article)
    (hmiss : article.articleReplies.find? (fun ar => ar.replyId == replyId) = none) :
    (resolve store (some u) now articleId replyId vote comment).result =
      .error .notFoundArticleReply ∧
    (resolve store (some u) now articleId replyId vote comment).store.articles =
      store.articles ∧
    (resolve store (some u) now articleId replyId vote comment).store.feedbacks.lookup
        (getArticleReplyFeedbackId articleId replyId u.id u.appId) =
      some (newFeedback articleId replyId u vote comment now) ∧
    (newFeedback articleId replyId u vote comment now).replyUserId = none ∧
    (newFeedback articleId replyId u vote comment now).articleReplyUserId = none := by
  have hres : resolve store (some u) now articleId replyId vote comment =
      ⟨.error .notFoundArticleReply,
        { store with feedbacks :=
            (setAssoc store.feedbacks
              (getArticleReplyFeedbackId articleId replyId u.id u.appId)
              (newFeedback articleId replyId u vote comment now)) }, 2⟩ := by
    simp only [resolve, hnone, hreply, harticle, hmiss]
  rw [hres]
  exact ⟨rfl, rfl, lookup_setAssoc_self _ _ _, rfl, rfl⟩

/-- Witness for C5 at the orphaned-reply store. -/
theorem c5_enrichment_notfound_witness :
    (storeOrphan.feedbacks.lookup
        (getArticleReplyFeedbackId "A1" "R9" userU1.id userU1.appId) = none ∧
     storeOrphan.replies.lookup "R9" = some replyR1 ∧
     storeOrphan.articles.lookup "A1" = some articleA1 ∧
     articleA1.articleReplies.find? (fun ar => ar.replyId == "R9") = none) ∧
    ((resolve storeOrphan (some userU1) 5 "A1" "R9" 1 (some "hi")).result =
        .error .notFoundArticleReply ∧
     (resolve storeOrphan (some userU1) 5 "A1" "R9" 1 (some "hi")).store.articles =
        storeOrphan.articles ∧
     (resolve storeOrphan (some userU1) 5 "A1" "R9" 1 (some "hi")).store.feedbacks.lookup
        (getArticleReplyFeedbackId "A1" "R9" userU1.id userU1.appId) =
      some (newFeedback "A1" "R9" userU1 1 (some "hi") 5) ∧
     (newFeedback "A1" "R9" userU1 1 (some "hi") 5).replyUserId = none ∧
     (newFeedback "A1" "R9" userU1 1 (some "hi") 5).articleReplyUserId = none) :=
  ⟨⟨by decide, by decide, by decide, by decide⟩,
   c5_enrichment_notfound storeOrphan userU1 5 "A1" "R9" 1 (some "hi")
     replyR1 articleA1 (by decide) (by decide) (by decide) (by decide)⟩

/-- C6: the author back-fill runs exactly on creation.  The first vote loads
the two collaborator documents and sets both author id fields; a second vote
by the same identity performs no document load and leaves both fields
unchanged. -/
theorem c6_backfill_once (store : Store) (u : User) (now1 now2 : Nat)
    (articleId replyId : String) (v1 v2 : Int) (c1 c2 : Option String)
    (reply : Reply) (article : Article) (ar : ArticleReplyEntry)
    (hnone : store.feedbacks.lookup
        (getArticleReplyFeedbackId articleId replyId u.id u.appId) = none)
    (hreply : store.replies.lookup replyId = some reply)
    (harticle : store.articles.lookup articleId = some article)
    (hfound : article.articleReplies.find? (fun e => e.replyId == replyId) = some ar) :
    (resolve store (some u) now1 articleId replyId v1 c1).lookups = 2 ∧
    (resolve (resolve store (some u) now1 articleId replyId v1 c1).store
        (some u) now2 articleId replyId v2 c2).lookups = 0 ∧
    ∃ r1 r2,
      (resolve store (some u) now1 articleId replyId v1 c1).store.feedbacks.lookup
          (getArticleReplyFeedbackId articleId replyId u.id u.appId) = some r1 ∧
      (resolve (resolve store (some u) now1 articleId replyId v1 c1).store
          (some u) now2 articleId replyId v2 c2).store.feedbacks.lookup
          (getArticleReplyFeedbackId articleId replyId u.id u.appId) = some r2 ∧
      r1.replyUserId = some reply.userId ∧
      r1.articleReplyUserId = some ar.userId ∧
      r2.replyUserId = r1.replyUserId ∧
      r2.articleReplyUserId = r1.articleReplyUserId := by
  obtain ⟨hf1, hl1⟩ := resolve_created_enriched store u now1 articleId replyId v1 c1
    reply article ar hnone hreply harticle hfound
  have hlook1 : (resolve store (some u) now1 articleId replyId v1 c1).store.feedbacks.lookup
      (getArticleReplyFeedbackId articleId replyId u.id u.appId) =
      some (enrichAuthors (newFeedback articleId replyId u v1 c1 now1)
        reply.userId ar.userId) := by
    rw [hf1]
    exact lookup_setAssoc_self _ _ _
  obtain ⟨hf2, hl2⟩ := resolve_updated_effect _ u now2 articleId replyId v2 c2 _ hlook1
  refine ⟨hl1, hl2, enrichAuthors (newFeedback articleId replyId u v1 c1 now1)
    reply.userId ar.userId,
    applyVoteDoc (enrichAuthors (newFeedback articleId replyId u v1 c1 now1)
      reply.userId ar.userId) v2 c2 now2, hlook1, ?_, rfl, rfl, rfl, rfl⟩
  rw [hf2]
  exact lookup_setAssoc_self _ _ _

/-- Witness for C6: two successive votes by `U1` on `(A1, R1)` from the
initial store. -/
theorem c6_backfill_once_witness :
    (store0.feedbacks.lookup
        (getArticleReplyFeedbackId "A1" "R1" userU1.id userU1.appId) = none ∧
     store0.replies.lookup "R1" = some replyR1 ∧
     store0.articles.lookup "A1" = some articleA1 ∧
     articleA1.articleReplies.find? (fun e => e.replyId == "R1") = some entryR1) ∧
    ((resolve store0 (some userU1) 3 "A1" "R1" 1 none).lookups = 2 ∧
     (resolve (resolve store0 (some userU1) 3 "A1" "R1" 1 none).store
        (some userU1) 8 "A1" "R1" (-1) (some "changed")).lookups = 0 ∧
     ∃ r1 r2,
       (resolve store0 (some userU1) 3 "A1" "R1" 1 none).store.feedbacks.lookup
           (getArticleReplyFeedbackId "A1" "R1" userU1.id userU1.appId) = some r1 ∧
       (resolve (resolve store0 (some userU1) 3 "A1" "R1" 1 none).store
           (some userU1) 8 "A1" "R1" (-1) (some "changed")).store.feedbacks.lookup
           (getArticleReplyFeedbackId "A1" "R1" userU1.id userU1.appId) = some r2 ∧
       r1.replyUserId = some replyR1.userId ∧
       r1.articleReplyUserId = some entryR1.userId ∧
       r2.replyUserId = r1.replyUserId ∧
       r2.articleReplyUserId = r1.articleReplyUserId) :=
  ⟨⟨by decide, by decide, by decide, by decide⟩,
   c6_backfill_once store0 userU1 3 8 "A1" "R1" 1 (-1) none (some "changed")
     replyR1 articleA1 entryR1 (by decide) (by decide) (by decide) (by decide)⟩

theorem foldl_applyVoteDoc_spec (votes : List (Nat × Int × Option String)) :
    ∀ r0 : FeedbackRecord,
    votes.foldl (fun acc v => applyVoteDoc acc v.2.1 v.2.2 v.1) r0 =
      applyVoteDoc r0
        (votes.getLastD (r0.updatedAt, r0.score, r0.comment)).2.1
        (votes.getLastD (r0.updatedAt, r0.score, r0.comment)).2.2
        (votes.getLastD (r0.updatedAt, r0.score, r0.comment)).1 := by
  induction votes with
  | nil =>
    intro r0
    rfl
  | cons v rest ih =>
    intro r0
    rw [List.foldl_cons, ih, List.getLastD_cons]
    rfl

theorem resolve_created_effect (store : Store) (u : User) (now : Nat)
    (articleId replyId : String) (vote : Int) (comment : Option String)
    (hnone : store.feedbacks.lookup
        (getArticleReplyFeedbackId articleId replyId u.id u.appId) = none) :
    ∃ r,
      (resolve store (some u) now articleId replyId vote comment).store.feedbacks.lookup
          (getArticleReplyFeedbackId articleId replyId u.id u.appId) = some r ∧
      (resolve store (some u) now articleId replyId vote comment).store.feedbacks.countP
          (fun q => q.1 ==
            getArticleReplyFeedbackId articleId replyId u.id u.appId) = 1 ∧
      r.score = vote ∧ r.comment = comment ∧ r.createdAt = now ∧ r.updatedAt = now := by
  cases hr : store.replies.lookup replyId with
  | none =>
    cases ha : store.articles.lookup articleId with
    | none =>
      refine ⟨newFeedback articleId replyId u vote comment now, ?_, ?_, rfl, rfl, rfl, rfl⟩
      · simp only [resolve, hnone, hr, ha]
        exact lookup_setAssoc_self _ _ _
      · simp only [resolve, hnone, hr, ha]
        exact countP_setAssoc_of_lookup_none _ _ _ hnone
    | some article =>
      refine ⟨newFeedback articleId replyId u vote comment now, ?_, ?_, rfl, rfl, rfl, rfl⟩
      · simp only [resolve, hnone, hr, ha]
        exact lookup_setAssoc_self _ _ _
      · simp only [resolve, hnone, hr, ha]
        exact countP_setAssoc_of_lookup_none _ _ _ hnone
  | some reply =>
    cases ha : store.articles.lookup articleId with
    | none =>
      refine ⟨newFeedback articleId replyId u vote comment now, ?_, ?_, rfl, rfl, rfl, rfl⟩
      · simp only [resolve, hnone, hr, ha]
        exact lookup_setAssoc_self _ _ _
      · simp only [resolve, hnone, hr, ha]
        exact countP_setAssoc_of_lookup_none _ _ _ hnone
    | some article =>
      cases hf : article.articleReplies.find? (fun e => e.replyId == replyId) with
      | none =>
        refine ⟨newFeedback articleId replyId u vote comment now, ?_, ?_, rfl, rfl, rfl, rfl⟩
        · simp only [resolve, hnone, hr, ha, hf]
          exact lookup_setAssoc_self _ _ _
        · simp only [resolve, hnone, hr, ha, hf]
          exact countP_setAssoc_of_lookup_none _ _ _ hnone
      | some ar =>
        obtain ⟨hfb, _⟩ := resolve_created_enriched store u now articleId replyId
          vote comment reply article ar hnone hr ha hf
        refine ⟨enrichAuthors (newFeedback articleId replyId u vote comment now)
          reply.userId ar.userId, ?_, ?_, rfl, rfl, rfl, rfl⟩
        · rw [hfb]
          exact lookup_setAssoc_self _ _ _
        · rw [hfb]
          exact countP_setAssoc_of_lookup_none _ _ _ hnone

theorem runVotes_effect (u : User) (articleId replyId : String)
    (votes : List (Nat × Int × Option String)) :
    ∀ (store : Store) (r0 : FeedbackRecord),
    store.feedbacks.lookup
        (getArticleReplyFeedbackId articleId replyId u.id u.appId) = some r0 →
    store.feedbacks.countP
        (fun q => q.1 == getArticleReplyFeedbackId articleId replyId u.id u.appId) = 1 →
    (runVotes u articleId replyId store votes).feedbacks.lookup
        (getArticleReplyFeedbackId articleId replyId u.id u.appId) =
      some (votes.foldl (fun acc v => applyVoteDoc acc v.2.1 v.2.2 v.1) r0) ∧
    (runVotes u articleId replyId store votes).feedbacks.countP
        (fun q => q.1 == getArticleReplyFeedbackId articleId replyId u.id u.appId) = 1 := by
  induction votes with
  | nil =>
    intro store r0 h1 h2
    exact ⟨h1, h2⟩
  | cons v rest ih =>
    intro store r0 h1 h2
    obtain ⟨nw, vt, cm⟩ := v
    obtain ⟨hf, _⟩ := resolve_updated_effect store u nw articleId replyId vt cm r0 h1
    rw [List.foldl_cons]
    have hstep : runVotes u articleId replyId store ((nw, vt, cm) :: rest) =
        runVotes u articleId replyId
          (resolve store (some u) nw articleId replyId vt cm).store rest := by
      simp only [runVotes]
    rw [hstep]
    apply ih
    · rw [hf]
      exact lookup_setAssoc_self _ _ _
    · rw [hf]
      rw [countP_setAssoc_of_lookup_some _ _ _ _ h1]
      exact h2

/-- C3: starting from a store with no record for the composite key, any
nonempty sequence of votes by the same identity leaves exactly one record
under that key, whose score, comment and updatedAt are the last vote's values
and whose createdAt is the first vote's timestamp. -/
theorem c3_upsert_uniqueness (store : Store) (u : User) (articleId replyId : String)
    (first : Nat × Int × Option String) (rest : List (Nat × Int × Option String))
    (hnone : store.feedbacks.lookup
        (getArticleReplyFeedbackId articleId replyId u.id u.appId) = none) :
    ∃ r,
      (runVotes u articleId replyId store (first :: rest)).feedbacks.lookup
          (getArticleReplyFeedbackId articleId replyId u.id u.appId) = some r ∧
      (runVotes u articleId replyId store (first :: rest)).feedbacks.countP
          (fun q => q.1 ==
            getArticleReplyFeedbackId articleId replyId u.id u.appId) = 1 ∧
      r.createdAt = first.1 ∧
      r.score = ((first :: rest).getLastD first).2.1 ∧
      r.comment = ((first :: rest).getLastD first).2.2 ∧
      r.updatedAt = ((first :: rest).getLastD first).1 := by
  obtain ⟨n1, v1, c1⟩ := first
  obtain ⟨r0, hl0, hc0, hs0, hcm0, hcr0, hu0⟩ :=
    resolve_created_effect store u n1 articleId replyId v1 c1 hnone
  have hstep : runVotes u articleId replyId store ((n1, v1, c1) :: rest) =
      runVotes u articleId replyId
        (resolve store (some u) n1 articleId replyId v1 c1).store rest := by
    simp only [runVotes]
  obtain ⟨hl, hc⟩ := runVotes_effect u articleId replyId rest _ r0 hl0 hc0
  rw [foldl_applyVoteDoc_spec] at hl
  refine ⟨applyVoteDoc r0
      (rest.getLastD (r0.updatedAt, r0.score, r0.comment)).2.1
      (rest.getLastD (r0.updatedAt, r0.score, r0.comment)).2.2
      (rest.getLastD (r0.updatedAt, r0.score, r0.comment)).1,
    ?_, ?_, ?_, ?_, ?_, ?_⟩
  · rw [hstep]
    exact hl
  · rw [hstep]
    exact hc
  · exact hcr0
  · rw [List.getLastD_cons, hu0, hs0, hcm0]
    rfl
  · rw [List.getLastD_cons, hu0, hs0, hcm0]
    rfl
  · rw [List.getLastD_cons, hu0, hs0, hcm0]
    rfl

/-- Witness for C3: two votes by `U1` on `(A1, R1)`; afterwards one record,
created at the first timestamp, carrying the second vote's values. -/
theorem c3_upsert_uniqueness_witness :
    (store0.feedbacks.lookup
        (getArticleReplyFeedbackId "A1" "R1" userU1.id userU1.appId) = none) ∧
    (∃ r,
      (runVotes userU1 "A1" "R1" store0
          [(5, 1, some "yay"), (9, -1, none)]).feedbacks.lookup
          (getArticleReplyFeedbackId "A1" "R1" userU1.id userU1.appId) = some r ∧
      (runVotes userU1 "A1" "R1" store0
          [(5, 1, some "yay"), (9, -1, none)]).feedbacks.countP
          (fun q => q.1 ==
            getArticleReplyFeedbackId "A1" "R1" userU1.id userU1.appId) = 1 ∧
      r.createdAt = 5 ∧ r.score = -1 ∧ r.comment = none ∧ r.updatedAt = 9) :=
  ⟨by decide,
   c3_upsert_uniqueness store0 userU1 "A1" "R1" (5, 1, some "yay")
     [(9, -1, none)] (by decide)⟩

end RumorsApi
